import Mathlib

/-!
Shallow embedding of the `lindos` Rust core (`src/rust-core/src/lib.rs`).

A foreign C-string handle is modelled as `CInput`: either the null pointer or
the raw bytes the pointer designates. `CStr::from_ptr` reads bytes up to the
first zero byte; `str::from_utf8` is modelled by an explicit UTF-8 decoder
(`decodeUtf8`) that follows the UTF-8 well-formedness rules Rust enforces
(continuation ranges, overlong-form and surrogate rejection, max U+10FFFF).

Rust's `str::len` counts UTF-8 bytes; it is modelled by `String.utf8ByteSize`.
Rust's `str::trim` strips characters with the Unicode `White_Space` property
from both ends; it is modelled by `rustIsWhitespace` / `rustTrim`.

An owned C buffer crossing the boundary is modelled as `Option String`, where
`none` stands for the null pointer; `ffi_support::rust_string_to_c` allocates
and never returns null, so its model always returns `some`.

The process-wide mutable flag `DEBUG_ENABLED` is modelled by explicit state
passing (`LindosState`): each boundary entry point that could touch it becomes
a function from state to result-and-state.
-/

set_option maxRecDepth 100000

/-- Unicode `White_Space` property, as used by Rust's `char::is_whitespace`. -/
def rustIsWhitespace (c : Char) : Bool :=
  let n := c.toNat
  decide ((0x09 ≤ n ∧ n ≤ 0x0D) ∨ n = 0x20 ∨ n = 0x85 ∨ n = 0xA0 ∨ n = 0x1680 ∨
    (0x2000 ≤ n ∧ n ≤ 0x200A) ∨ n = 0x2028 ∨ n = 0x2029 ∨ n = 0x202F ∨ n = 0x205F ∨
    n = 0x3000)

/-- Rust `str::trim`: strip `White_Space` characters from both ends. -/
def rustTrim (s : String) : String :=
  String.mk (((s.data.dropWhile rustIsWhitespace).reverse.dropWhile rustIsWhitespace).reverse)

/-- UTF-8 continuation byte: `0x80 ≤ b ≤ 0xBF`. -/
def isCont (b : UInt8) : Bool :=
  decide (0x80 ≤ b.toNat ∧ b.toNat ≤ 0xBF)

/-- One step of UTF-8 decoding with Rust `str::from_utf8` acceptance: reads
the leading character's byte sequence (rejecting overlong forms, surrogate
code points and values above U+10FFFF) and returns the character together
with the remaining bytes, or `none` if the front is ill-formed or empty. -/
def utf8Step : List UInt8 → Option (Char × List UInt8)
  | [] => none
  | b1 :: t1 =>
    let n1 := b1.toNat
    if n1 < 0x80 then
      some (Char.ofNat n1, t1)
    else if decide (0xC2 ≤ n1 ∧ n1 ≤ 0xDF) then
      match t1 with
      | b2 :: t2 =>
        if isCont b2 then
          some (Char.ofNat ((n1 - 0xC0) * 0x40 + (b2.toNat - 0x80)), t2)
        else none
      | [] => none
    else if decide (0xE0 ≤ n1 ∧ n1 ≤ 0xEF) then
      match t1 with
      | b2 :: b3 :: t3 =>
        let lo2 := if n1 = 0xE0 then 0xA0 else 0x80
        let hi2 := if n1 = 0xED then 0x9F else 0xBF
        if decide (lo2 ≤ b2.toNat ∧ b2.toNat ≤ hi2) && isCont b3 then
          some (Char.ofNat ((n1 - 0xE0) * 0x1000 + (b2.toNat - 0x80) * 0x40 +
            (b3.toNat - 0x80)), t3)
        else none
      | _ => none
    else if decide (0xF0 ≤ n1 ∧ n1 ≤ 0xF4) then
      match t1 with
      | b2 :: b3 :: b4 :: t4 =>
        let lo2 := if n1 = 0xF0 then 0x90 else 0x80
        let hi2 := if n1 = 0xF4 then 0x8F else 0xBF
        if decide (lo2 ≤ b2.toNat ∧ b2.toNat ≤ hi2) && isCont b3 && isCont b4 then
          some (Char.ofNat ((n1 - 0xF0) * 0x40000 + (b2.toNat - 0x80) * 0x1000 +
            (b3.toNat - 0x80) * 0x40 + (b4.toNat - 0x80)), t4)
        else none
      | _ => none
    else none

/-- A successful decoding step consumes at least one byte. -/
theorem utf8Step_length {bs : List UInt8} {c : Char} {rest : List UInt8}
    (h : utf8Step bs = some (c, rest)) : rest.length < bs.length := by
  cases bs with
  | nil => simp [utf8Step] at h
  | cons b1 t1 =>
    simp only [utf8Step] at h
    repeat' split at h
    all_goals (try simp_all)
    all_goals omega

/-- UTF-8 decoder: repeatedly take one character step; succeed only when the
whole byte sequence is consumed by well-formed character sequences. -/
def decodeUtf8 (bs : List UInt8) : Option (List Char) :=
  match h : utf8Step bs with
  | some (c, rest) => (decodeUtf8 rest).map (fun cs => c :: cs)
  | none => if bs = [] then some [] else none
termination_by bs.length
decreasing_by exact utf8Step_length h

/-- A foreign string handle: the null pointer, or the bytes it points at
(the byte sequence the caller owns; reading stops at the first zero byte). -/
inductive CInput where
  | null : CInput
  | bytes (bs : List UInt8) : CInput

/-- `ProcessingError` from `lib.rs`. The Rust `InvalidUtf8` variant carries a
`std::str::Utf8Error` used only for local diagnostics; it is dropped here
because no boundary behavior depends on it. -/
inductive ProcessingError where
  | NullPointer : ProcessingError
  | InvalidUtf8 : ProcessingError
  | EmptyMessage : ProcessingError
  | ProcessingFailure (detail : String) : ProcessingError
deriving DecidableEq

/-- `ProcessingError::to_user_message`. -/
def ProcessingError.to_user_message : ProcessingError → String
  | .NullPointer => "Error: No message provided"
  | .InvalidUtf8 => "Error: Message contains invalid characters"
  | .EmptyMessage => "Error: Message cannot be empty"
  | .ProcessingFailure _ => "Error: Failed to process message"

/-- `ffi_support::rust_string_to_c`: allocates an owned C string for a Rust
`String`; the allocation never yields a null pointer, hence always `some`. -/
def rust_string_to_c (s : String) : Option String :=
  some s

/-- `RustResult` from `lib.rs`: `{ success, data (owned C string), error_code }`.
`data = none` models a null pointer. -/
structure RustResult where
  success : Bool
  data : Option String
  error_code : Int
deriving DecidableEq

/-- `RustResult::success` constructor (named `mkSuccess` because the structure
field of the same name occupies `RustResult.success`). -/
def RustResult.mkSuccess (data : String) : RustResult :=
  { success := true
    data := rust_string_to_c data
    error_code := 0 }

/-- `RustResult::error` constructor (named `mkError` to parallel `mkSuccess`). -/
def RustResult.mkError (error : ProcessingError) : RustResult :=
  { success := false
    data := rust_string_to_c error.to_user_message
    error_code :=
      match error with
      | .NullPointer => 1
      | .InvalidUtf8 => 2
      | .EmptyMessage => 3
      | .ProcessingFailure _ => 4 }

/-- `generate_reply` from `lib.rs`: greeting for blank input, length guard at
1000 bytes, otherwise prefix-echo. -/
def generate_reply (input : String) : Except ProcessingError String :=
  if (rustTrim input).isEmpty then
    Except.ok "Hello from Rust core!"
  else if input.utf8ByteSize > 1000 then
    Except.error (ProcessingError.ProcessingFailure "Message too long")
  else
    Except.ok ("You said: " ++ input)

/-- `safe_str_from_ptr` from `lib.rs`: null check, then `CStr::from_ptr`
(reads up to the first zero byte) and UTF-8 validation. -/
def safe_str_from_ptr : CInput → Except ProcessingError String
  | CInput.null => Except.error ProcessingError.NullPointer
  | CInput.bytes bs =>
    match decodeUtf8 (bs.takeWhile (fun b => b ≠ 0)) with
    | some cs => Except.ok (String.mk cs)
    | none => Except.error ProcessingError.InvalidUtf8

/-- `lindos_process_message`: legacy entry point; the returned owned buffer
holds the reply on success and the fixed user-facing message on failure.
`eprintln!` diagnostics have no boundary-visible effect and are omitted. -/
def lindos_process_message (message : CInput) : Option String :=
  rust_string_to_c
    (match safe_str_from_ptr message with
     | Except.ok input =>
       match generate_reply input with
       | Except.ok reply => reply
       | Except.error error => error.to_user_message
     | Except.error error => error.to_user_message)

/-- `lindos_process_message_safe`: checked entry point returning a `RustResult`
envelope. `println!`/`eprintln!` diagnostics are omitted. -/
def lindos_process_message_safe (message : CInput) : RustResult :=
  match safe_str_from_ptr message with
  | Except.ok input =>
    match generate_reply input with
    | Except.ok reply => RustResult.mkSuccess reply
    | Except.error error => RustResult.mkError error
  | Except.error error => RustResult.mkError error

/-- `lindos_validate_message`: bridge conversion plus the length check only. -/
def lindos_validate_message (message : CInput) : Int :=
  match safe_str_from_ptr message with
  | Except.ok input =>
    if input.utf8ByteSize > 1000 then 4 else 0
  | Except.error error =>
    match error with
    | ProcessingError.NullPointer => 1
    | ProcessingError.InvalidUtf8 => 2
    | ProcessingError.EmptyMessage => 3
    | ProcessingError.ProcessingFailure _ => 4

/-- `lindos_error_message`: the Error Catalog lookup. -/
def lindos_error_message (error_code : Int) : Option String :=
  rust_string_to_c
    (match error_code with
     | 1 => "No message provided"
     | 2 => "Message contains invalid characters"
     | 3 => "Message cannot be empty"
     | 4 => "Failed to process message"
     | _ => "Unknown error")

/-- The process-wide mutable state of the library: the `DEBUG_ENABLED` flag. -/
structure LindosState where
  debug_enabled : Bool
deriving DecidableEq

/-- `lindos_set_debug`: unconditionally overwrite the flag (the `println!`
confirmation line has no boundary-visible effect). -/
def lindos_set_debug (enabled : Bool) (_st : LindosState) : LindosState :=
  { debug_enabled := enabled }

/-- `debug_log`: reads the flag to decide whether to print; mutates nothing. -/
def debug_log (_message : String) (st : LindosState) : LindosState :=
  st

/-- `lindos_validate_message` with the process state threaded through: the
function body never mentions `DEBUG_ENABLED`, so the state passes unchanged. -/
def lindos_validate_message_st (message : CInput) (st : LindosState) :
    Int × LindosState :=
  (lindos_validate_message message, st)

/-- `lindos_process_message` with the process state threaded through. -/
def lindos_process_message_st (message : CInput) (st : LindosState) :
    Option String × LindosState :=
  (lindos_process_message message, st)

/-- `lindos_process_message_safe` with the process state threaded through. -/
def lindos_process_message_safe_st (message : CInput) (st : LindosState) :
    RustResult × LindosState :=
  (lindos_process_message_safe message, st)

/-- Every character occupies at least one UTF-8 byte, so a string has at most
as many code points as bytes. -/
theorem length_le_utf8ByteSize (s : String) : s.data.length ≤ s.utf8ByteSize := by
  cases s with
  | mk l =>
    induction l with
    | nil => simp [String.utf8ByteSize, String.utf8ByteSize.go]
    | cons c cs ih =>
      have h := Char.utf8Size_pos c
      simp only [String.utf8ByteSize, String.utf8ByteSize.go, List.length_cons] at *
      omega

/-- `takeWhile (· ≠ 0)` keeps a list with no zero byte intact. -/
theorem takeWhile_ne_zero_of_forall (l : List UInt8) (h : ∀ b ∈ l, b ≠ 0) :
    l.takeWhile (fun b => b ≠ 0) = l := by
  induction l with
  | nil => rfl
  | cons b t ih =>
    have hb : b ≠ 0 := h b (List.mem_cons_self b t)
    have ht := ih (fun x hx => h x (List.mem_cons_of_mem b hx))
    rw [List.takeWhile_cons, if_pos (decide_eq_true hb), ht]

/-- Unfolding the decoder on the empty byte sequence. -/
theorem decodeUtf8_nil : decodeUtf8 [] = some [] := by
  conv_lhs => unfold decodeUtf8
  split
  · next heq => simp [utf8Step] at heq
  · simp

/-- Unfolding the decoder after a successful character step. -/
theorem decodeUtf8_cons_step {bs : List UInt8} {c : Char} {rest : List UInt8}
    (h : utf8Step bs = some (c, rest)) :
    decodeUtf8 bs = (decodeUtf8 rest).map (fun cs => c :: cs) := by
  conv_lhs => unfold decodeUtf8
  split
  · next c' rest' heq =>
    rw [h] at heq
    simp only [Option.some.injEq, Prod.mk.injEq] at heq
    obtain ⟨rfl, rfl⟩ := heq
    rfl
  · next heq =>
    rw [h] at heq
    simp at heq

/-- Unfolding the decoder when no character step is possible. -/
theorem decodeUtf8_none {bs : List UInt8} (h : utf8Step bs = none) (hne : bs ≠ []) :
    decodeUtf8 bs = none := by
  conv_lhs => unfold decodeUtf8
  split
  · next c' rest' heq =>
    rw [h] at heq
    simp at heq
  · simp [hne]

/-- One decoding step on an ASCII space byte. -/
theorem utf8Step_space (rest : List UInt8) :
    utf8Step (0x20 :: rest) = some (' ', rest) := rfl

/-- One decoding step on the ASCII byte of `'a'`. -/
theorem utf8Step_a (rest : List UInt8) :
    utf8Step (0x61 :: rest) = some ('a', rest) := rfl

/-- One decoding step on the two-byte sequence of `'é'` (U+00E9). -/
theorem utf8Step_eacute (rest : List UInt8) :
    utf8Step (0xC3 :: 0xA9 :: rest) = some ('é', rest) := rfl

/-- Decoding a run of spaces. -/
theorem decodeUtf8_replicate_space (n : Nat) :
    decodeUtf8 (List.replicate n 0x20) = some (List.replicate n ' ') := by
  induction n with
  | zero => exact decodeUtf8_nil
  | succ n ih =>
    rw [List.replicate_succ, List.replicate_succ,
      decodeUtf8_cons_step (utf8Step_space _), ih]
    rfl

/-- Decoding a run of `'a'` bytes. -/
theorem decodeUtf8_replicate_a (n : Nat) :
    decodeUtf8 (List.replicate n 0x61) = some (List.replicate n 'a') := by
  induction n with
  | zero => exact decodeUtf8_nil
  | succ n ih =>
    rw [List.replicate_succ, List.replicate_succ,
      decodeUtf8_cons_step (utf8Step_a _), ih]
    rfl

/-- Decoding a run of `'é'` byte pairs. -/
theorem decodeUtf8_replicate_eacute (n : Nat) :
    decodeUtf8 (List.flatten (List.replicate n [0xC3, 0xA9])) =
      some (List.replicate n 'é') := by
  induction n with
  | zero => exact decodeUtf8_nil
  | succ n ih =>
    rw [List.replicate_succ, List.flatten_cons]
    rw [show ([0xC3, 0xA9] : List UInt8) ++ (List.replicate n [0xC3, 0xA9]).flatten =
      0xC3 :: 0xA9 :: (List.replicate n [0xC3, 0xA9]).flatten from rfl]
    rw [decodeUtf8_cons_step (utf8Step_eacute _), ih, List.replicate_succ]
    rfl

/-- Bridge conversion of a run of spaces. -/
theorem safe_str_from_ptr_replicate_space (n : Nat) :
    safe_str_from_ptr (CInput.bytes (List.replicate n 0x20)) =
      Except.ok (String.mk (List.replicate n ' ')) := by
  have ht : (List.replicate n (0x20 : UInt8)).takeWhile (fun b => b ≠ 0) =
      List.replicate n (0x20 : UInt8) :=
    takeWhile_ne_zero_of_forall _
      (fun b hb => by rw [List.eq_of_mem_replicate hb]; decide)
  simp only [safe_str_from_ptr, ht, decodeUtf8_replicate_space]

/-- Bridge conversion of a run of `'a'` bytes. -/
theorem safe_str_from_ptr_replicate_a (n : Nat) :
    safe_str_from_ptr (CInput.bytes (List.replicate n 0x61)) =
      Except.ok (String.mk (List.replicate n 'a')) := by
  have ht : (List.replicate n (0x61 : UInt8)).takeWhile (fun b => b ≠ 0) =
      List.replicate n (0x61 : UInt8) :=
    takeWhile_ne_zero_of_forall _
      (fun b hb => by rw [List.eq_of_mem_replicate hb]; decide)
  simp only [safe_str_from_ptr, ht, decodeUtf8_replicate_a]

/-- Bridge conversion of a run of `'é'` byte pairs. -/
theorem safe_str_from_ptr_replicate_eacute (n : Nat) :
    safe_str_from_ptr (CInput.bytes (List.flatten (List.replicate n [0xC3, 0xA9]))) =
      Except.ok (String.mk (List.replicate n 'é')) := by
  have ht : (List.flatten (List.replicate n ([0xC3, 0xA9] : List UInt8))).takeWhile
        (fun b => b ≠ 0) =
      List.flatten (List.replicate n ([0xC3, 0xA9] : List UInt8)) :=
    takeWhile_ne_zero_of_forall _ (fun b hb => by
      obtain ⟨l, hl, hbl⟩ := List.mem_flatten.1 hb
      rw [List.eq_of_mem_replicate hl] at hbl
      simp only [List.mem_cons, List.not_mem_nil, or_false] at hbl
      rcases hbl with rfl | rfl <;> decide)
  simp only [safe_str_from_ptr, ht, decodeUtf8_replicate_eacute]

/-- `dropWhile` drops a run of one repeated character the predicate accepts. -/
theorem dropWhile_replicate_pos (p : Char → Bool) (c : Char) (h : p c = true) (n : Nat) :
    (List.replicate n c).dropWhile p = [] := by
  induction n with
  | zero => rfl
  | succ n ih => rw [List.replicate_succ, List.dropWhile_cons, if_pos h, ih]

/-- `dropWhile` keeps a run of one repeated character the predicate rejects. -/
theorem dropWhile_replicate_neg (p : Char → Bool) (c : Char) (h : p c = false) (n : Nat) :
    (List.replicate n c).dropWhile p = List.replicate n c := by
  cases n with
  | zero => rfl
  | succ n => rw [List.replicate_succ, List.dropWhile_cons, if_neg (by simp [h])]

/-- Trimming a whitespace-only run yields the empty string. -/
theorem rustTrim_replicate_space (n : Nat) :
    rustTrim (String.mk (List.replicate n ' ')) = "" := by
  unfold rustTrim
  rw [show (String.mk (List.replicate n ' ')).data = List.replicate n ' ' from rfl]
  rw [dropWhile_replicate_pos _ _ rfl]
  rfl

/-- Trimming a run of a non-whitespace character changes nothing. -/
theorem rustTrim_replicate_not_ws (c : Char) (h : rustIsWhitespace c = false) (n : Nat) :
    rustTrim (String.mk (List.replicate n c)) = String.mk (List.replicate n c) := by
  unfold rustTrim
  rw [show (String.mk (List.replicate n c)).data = List.replicate n c from rfl]
  rw [dropWhile_replicate_neg _ _ h, List.reverse_replicate,
    dropWhile_replicate_neg _ _ h, List.reverse_replicate]

/-- A string of a positive run of characters is not empty. -/
theorem mk_replicate_succ_isEmpty_false (c : Char) (n : Nat) :
    (String.mk (List.replicate (n + 1) c)).isEmpty = false := by
  rw [Bool.eq_false_iff]
  intro h
  have h2 := (String.isEmpty_iff _).1 h
  rw [List.replicate_succ] at h2
  have hdata : c :: List.replicate n c = ([] : List Char) := congrArg String.data h2
  exact List.cons_ne_nil _ _ hdata

/-- UTF-8 byte size of a run of one repeated character. -/
theorem utf8ByteSize_replicate (n : Nat) (c : Char) :
    (String.mk (List.replicate n c)).utf8ByteSize = n * c.utf8Size := by
  induction n with
  | zero => simp [String.utf8ByteSize, String.utf8ByteSize.go]
  | succ n ih =>
    simp only [List.replicate_succ, String.utf8ByteSize, String.utf8ByteSize.go] at *
    rw [ih]
    ring

/-- One decoding step on any ASCII byte. -/
theorem decodeUtf8_ascii_cons (b : UInt8) (rest : List UInt8) (h : b.toNat < 0x80) :
    decodeUtf8 (b :: rest) = (decodeUtf8 rest).map (fun cs => Char.ofNat b.toNat :: cs) :=
  decodeUtf8_cons_step (by simp [utf8Step, h])

/-- Bridge conversion of the concrete bytes of `"hi"`. -/
theorem safe_str_from_ptr_hi :
    safe_str_from_ptr (CInput.bytes [104, 105]) = Except.ok "hi" := by
  simp only [safe_str_from_ptr]
  rw [show List.takeWhile (fun b => b ≠ 0) ([104, 105] : List UInt8) = [104, 105] from rfl]
  rw [decodeUtf8_ascii_cons _ _ (by decide), decodeUtf8_ascii_cons _ _ (by decide),
    decodeUtf8_nil]
  rfl

/-- The bridge never reports `EmptyMessage` or `ProcessingFailure`: its only
failure modes are the null check and UTF-8 validation. -/
theorem safe_str_from_ptr_error_cases (input : CInput) (e : ProcessingError)
    (h : safe_str_from_ptr input = Except.error e) :
    e = ProcessingError.NullPointer ∨ e = ProcessingError.InvalidUtf8 := by
  cases input with
  | null =>
    simp only [safe_str_from_ptr, Except.error.injEq] at h
    exact Or.inl h.symm
  | bytes bs =>
    simp only [safe_str_from_ptr] at h
    rcases hdec : decodeUtf8 (bs.takeWhile (fun b => b ≠ 0)) with _ | cs
    · rw [hdec] at h
      simp only [Except.error.injEq] at h
      exact Or.inr h.symm
    · rw [hdec] at h
      simp at h

/-- The transform's only failure mode is the length guard. -/
theorem generate_reply_error_cases (s : String) (e : ProcessingError)
    (h : generate_reply s = Except.error e) :
    e = ProcessingError.ProcessingFailure "Message too long" := by
  unfold generate_reply at h
  split at h
  · simp at h
  · split at h
    · simp only [Except.error.injEq] at h
      exact h.symm
    · simp at h

/-- Trimming a positive run of a non-whitespace character leaves a non-empty
string. -/
theorem trim_replicate_isEmpty_false (c : Char) (hc : rustIsWhitespace c = false)
    (n : Nat) (hn : 0 < n) :
    (rustTrim (String.mk (List.replicate n c))).isEmpty = false := by
  obtain ⟨m, rfl⟩ : ∃ m, n = m + 1 := ⟨n - 1, by omega⟩
  rw [rustTrim_replicate_not_ws c hc]
  exact mk_replicate_succ_isEmpty_false c m

/-- The checked entry point maps every whitespace-only run (of any length) to
the greeting envelope. -/
theorem process_safe_replicate_space (n : Nat) :
    lindos_process_message_safe (CInput.bytes (List.replicate n 0x20)) =
      RustResult.mkSuccess "Hello from Rust core!" := by
  simp only [lindos_process_message_safe, safe_str_from_ptr_replicate_space, generate_reply,
    rustTrim_replicate_space, show ("" : String).isEmpty = true from rfl, if_true]

/-- The validation entry point rejects every whitespace run longer than 1000
bytes with code 4. -/
theorem validate_replicate_space_long (n : Nat) (h : 1000 < n) :
    lindos_validate_message (CInput.bytes (List.replicate n 0x20)) = 4 := by
  simp only [lindos_validate_message, safe_str_from_ptr_replicate_space,
    utf8ByteSize_replicate, show Char.utf8Size ' ' = 1 from rfl, mul_one, gt_iff_lt]
  rw [if_pos h]

/-- The checked entry point rejects a run of `'é'` whose byte count `2 * n`
exceeds 1000, whatever its code-point count. -/
theorem process_safe_replicate_eacute_long (n : Nat) (hn : 0 < n) (h : 1000 < n * 2) :
    lindos_process_message_safe (CInput.bytes (List.flatten (List.replicate n [0xC3, 0xA9]))) =
      RustResult.mkError (ProcessingError.ProcessingFailure "Message too long") := by
  have htrim : (rustTrim (String.mk (List.replicate n 'é'))).isEmpty = false :=
    trim_replicate_isEmpty_false 'é' rfl n hn
  have hbyte : 1000 < (String.mk (List.replicate n 'é')).utf8ByteSize := by
    rw [utf8ByteSize_replicate, show Char.utf8Size 'é' = 2 from rfl]
    exact h
  simp only [lindos_process_message_safe, safe_str_from_ptr_replicate_eacute, generate_reply,
    htrim, Bool.false_eq_true, if_false, gt_iff_lt, hbyte, if_true]

/-- C5: for every valid text input whose trimmed form is empty (the empty
string and whitespace-only strings of any length), `process_message_checked`
returns `success = true`, `error_code = 0` and the fixed greeting. -/
theorem c5_blank_input_greeting (bs : List UInt8) (s : String)
    (hdec : safe_str_from_ptr (CInput.bytes bs) = Except.ok s)
    (htrim : (rustTrim s).isEmpty = true) :
    (lindos_process_message_safe (CInput.bytes bs)).success = true ∧
    (lindos_process_message_safe (CInput.bytes bs)).error_code = 0 ∧
    (lindos_process_message_safe (CInput.bytes bs)).data = some "Hello from Rust core!" := by
  have henv : lindos_process_message_safe (CInput.bytes bs) =
      RustResult.mkSuccess "Hello from Rust core!" := by
    simp only [lindos_process_message_safe, hdec, generate_reply, htrim, if_true]
  rw [henv]
  exact ⟨rfl, rfl, rfl⟩

/-- C5 witness: the three-space input takes the greeting path. -/
theorem c5_blank_input_greeting_witness :
    (lindos_process_message_safe (CInput.bytes (List.replicate 3 0x20))).success = true ∧
    (lindos_process_message_safe (CInput.bytes (List.replicate 3 0x20))).error_code = 0 ∧
    (lindos_process_message_safe (CInput.bytes (List.replicate 3 0x20))).data =
      some "Hello from Rust core!" :=
  c5_blank_input_greeting (List.replicate 3 0x20) (String.mk (List.replicate 3 ' '))
    (safe_str_from_ptr_replicate_space 3)
    (by rw [rustTrim_replicate_space]; rfl)

/-- C2 counterexample: the 1001-space input has more than 1000 units in every
sense (1001 code points, 1001 bytes), yet `process_message_checked` succeeds
with `error_code = 0`, because the blank-input check precedes the length
guard. -/
theorem c2_long_blank_succeeds :
    safe_str_from_ptr (CInput.bytes (List.replicate 1001 0x20)) =
      Except.ok (String.mk (List.replicate 1001 ' ')) ∧
    (String.mk (List.replicate 1001 ' ')).data.length = 1001 ∧
    (lindos_process_message_safe (CInput.bytes (List.replicate 1001 0x20))).success = true ∧
    (lindos_process_message_safe (CInput.bytes (List.replicate 1001 0x20))).error_code = 0 := by
  refine ⟨safe_str_from_ptr_replicate_space 1001, by simp, ?_, ?_⟩ <;>
    rw [process_safe_replicate_space 1001] <;> rfl

/-- C2 (amended): for every valid text input whose trimmed form is non-empty
and whose length exceeds 1000 code points, `process_message_checked` returns
`success = false` and `error_code = 4`. -/
theorem c2_too_long_fails (bs : List UInt8) (s : String)
    (hdec : safe_str_from_ptr (CInput.bytes bs) = Except.ok s)
    (htrim : ¬(rustTrim s).isEmpty = true)
    (hlen : 1000 < s.data.length) :
    (lindos_process_message_safe (CInput.bytes bs)).success = false ∧
    (lindos_process_message_safe (CInput.bytes bs)).error_code = 4 := by
  have hbyte : 1000 < s.utf8ByteSize := lt_of_lt_of_le hlen (length_le_utf8ByteSize s)
  have henv : lindos_process_message_safe (CInput.bytes bs) =
      RustResult.mkError (ProcessingError.ProcessingFailure "Message too long") := by
    simp only [lindos_process_message_safe, hdec, generate_reply,
      Bool.not_eq_true _ ▸ htrim, Bool.false_eq_true, if_false, gt_iff_lt, hbyte, if_true]
  rw [henv]
  exact ⟨rfl, rfl⟩

/-- C2 witness: the 1001-`'a'` input fails with code 4. -/
theorem c2_too_long_fails_witness :
    (lindos_process_message_safe (CInput.bytes (List.replicate 1001 0x61))).success = false ∧
    (lindos_process_message_safe (CInput.bytes (List.replicate 1001 0x61))).error_code = 4 :=
  c2_too_long_fails (List.replicate 1001 0x61) (String.mk (List.replicate 1001 'a'))
    (safe_str_from_ptr_replicate_a 1001)
    (by rw [trim_replicate_isEmpty_false 'a' rfl 1001 (by decide)]; exact Bool.false_ne_true)
    (by simp)

/-- C3 counterexample: 501 copies of `'é'` form valid text that is non-empty
after trimming and only 501 code points long, yet `process_message_checked`
fails with code 4, because the length guard counts UTF-8 bytes (1002 here),
not code points. -/
theorem c3_codepoint_bound_fails :
    safe_str_from_ptr (CInput.bytes (List.flatten (List.replicate 501 [0xC3, 0xA9]))) =
      Except.ok (String.mk (List.replicate 501 'é')) ∧
    ¬(rustTrim (String.mk (List.replicate 501 'é'))).isEmpty = true ∧
    (String.mk (List.replicate 501 'é')).data.length ≤ 1000 ∧
    (lindos_process_message_safe
      (CInput.bytes (List.flatten (List.replicate 501 [0xC3, 0xA9])))).success = false ∧
    (lindos_process_message_safe
      (CInput.bytes (List.flatten (List.replicate 501 [0xC3, 0xA9])))).error_code = 4 := by
  have henv := process_safe_replicate_eacute_long 501 (by decide) (by decide)
  exact ⟨safe_str_from_ptr_replicate_eacute 501,
    by rw [trim_replicate_isEmpty_false 'é' rfl 501 (by decide)]; exact Bool.false_ne_true,
    by simp, by rw [henv]; rfl, by rw [henv]; rfl⟩

/-- C3 (amended): for every valid text input that is non-empty after trimming
and at most 1000 UTF-8 bytes long (bytes, not code points),
`process_message_checked` returns `success = true`, `error_code = 0` and data
equal to the fixed prefix concatenated with the input. -/
theorem c3_ok_input_echoed (bs : List UInt8) (s : String)
    (hdec : safe_str_from_ptr (CInput.bytes bs) = Except.ok s)
    (htrim : ¬(rustTrim s).isEmpty = true)
    (hlen : s.utf8ByteSize ≤ 1000) :
    (lindos_process_message_safe (CInput.bytes bs)).success = true ∧
    (lindos_process_message_safe (CInput.bytes bs)).error_code = 0 ∧
    (lindos_process_message_safe (CInput.bytes bs)).data = some ("You said: " ++ s) := by
  have hn : ¬(1000 < s.utf8ByteSize) := not_lt.mpr hlen
  have henv : lindos_process_message_safe (CInput.bytes bs) =
      RustResult.mkSuccess ("You said: " ++ s) := by
    simp only [lindos_process_message_safe, hdec, generate_reply,
      Bool.not_eq_true _ ▸ htrim, Bool.false_eq_true, if_false, gt_iff_lt, hn]
  rw [henv]
  exact ⟨rfl, rfl, rfl⟩

/-- C3 witness: input `"hi"` echoes with the fixed prefix and code 0. -/
theorem c3_ok_input_echoed_witness :
    (lindos_process_message_safe (CInput.bytes [104, 105])).success = true ∧
    (lindos_process_message_safe (CInput.bytes [104, 105])).error_code = 0 ∧
    (lindos_process_message_safe (CInput.bytes [104, 105])).data = some ("You said: " ++ "hi") :=
  c3_ok_input_echoed [104, 105] "hi" safe_str_from_ptr_hi (by decide) (by decide)

/-- C1 counterexample: on the 1001-space input, `validate_message` returns 4
while `process_message_checked` returns an envelope with `error_code = 0`
(the transform accepts blank input before the length guard, but the
validation entry point applies the length guard to every decoded input). -/
theorem c1_validate_disagrees_on_long_blank :
    lindos_validate_message (CInput.bytes (List.replicate 1001 0x20)) = 4 ∧
    (lindos_process_message_safe (CInput.bytes (List.replicate 1001 0x20))).error_code = 0 := by
  constructor
  · exact validate_replicate_space_long 1001 (by decide)
  · rw [process_safe_replicate_space 1001]
    rfl

/-- C1 (amended): for every input handle except valid text that is blank
after trimming and longer than 1000 bytes, `validate_message` returns exactly
the `error_code` of the envelope `process_message_checked` returns; on the
excepted inputs `validate_message` returns 4 while the envelope carries 0. -/
theorem c1_validate_matches_checked_code (input : CInput)
    (h : ∀ s, safe_str_from_ptr input = Except.ok s →
      ¬((rustTrim s).isEmpty = true ∧ 1000 < s.utf8ByteSize)) :
    lindos_validate_message input = (lindos_process_message_safe input).error_code := by
  cases hd : safe_str_from_ptr input with
  | error e =>
    unfold lindos_validate_message lindos_process_message_safe
    rw [hd]
    cases e <;> rfl
  | ok s =>
    have hnb := h s hd
    unfold lindos_validate_message lindos_process_message_safe generate_reply
    rw [hd]
    by_cases ht : (rustTrim s).isEmpty = true
    · have hlen : ¬(1000 < s.utf8ByteSize) := fun hl => hnb ⟨ht, hl⟩
      simp [ht, hlen, RustResult.mkSuccess]
    · by_cases hl : 1000 < s.utf8ByteSize
      · simp [ht, hl, RustResult.mkError]
      · simp [ht, hl, RustResult.mkSuccess]

/-- C1 witness: the codes agree on the input `"hi"`. -/
theorem c1_validate_matches_checked_code_witness :
    lindos_validate_message (CInput.bytes [104, 105]) =
      (lindos_process_message_safe (CInput.bytes [104, 105])).error_code :=
  c1_validate_matches_checked_code (CInput.bytes [104, 105]) (fun s hs => by
    rw [safe_str_from_ptr_hi] at hs
    injection hs with hs2
    subst hs2
    decide)

/-- C4 counterexample: the null-handle envelope's message carries the
`"Error: "` prefix, so it differs from the catalog entry `error_message(1)`
returns. -/
theorem c4_null_message_ne_catalog :
    (lindos_process_message_safe CInput.null).data = some "Error: No message provided" ∧
    lindos_error_message 1 = some "No message provided" ∧
    (lindos_process_message_safe CInput.null).data ≠ lindos_error_message 1 := by
  refine ⟨rfl, rfl, ?_⟩
  decide

/-- C4 (amended): for a null input handle, `process_message_checked` returns
`success = false`, `error_code = 1` and a non-null data buffer holding the
`NullPointer` failure's fixed user message, which is `"Error: "` prepended to
the catalog entry that `error_message(1)` returns. -/
theorem c4_null_input_envelope :
    (lindos_process_message_safe CInput.null).success = false ∧
    (lindos_process_message_safe CInput.null).error_code = 1 ∧
    (lindos_process_message_safe CInput.null).data ≠ none ∧
    (lindos_process_message_safe CInput.null).data =
      (lindos_error_message 1).map (fun m => "Error: " ++ m) := by
  refine ⟨rfl, rfl, ?_, ?_⟩ <;> decide

/-- C6: `error_message` returns exactly the catalog entry for each code in
1..4, returns `"Unknown error"` for every other integer code, and always
returns a non-null buffer. -/
theorem c6_error_message_catalog (c : Int)
    (h : c ≠ 1 ∧ c ≠ 2 ∧ c ≠ 3 ∧ c ≠ 4) :
    lindos_error_message 1 = some "No message provided" ∧
    lindos_error_message 2 = some "Message contains invalid characters" ∧
    lindos_error_message 3 = some "Message cannot be empty" ∧
    lindos_error_message 4 = some "Failed to process message" ∧
    lindos_error_message c = some "Unknown error" ∧
    (lindos_error_message c).isSome = true := by
  obtain ⟨h1, h2, h3, h4⟩ := h
  refine ⟨rfl, rfl, rfl, rfl, ?_, ?_⟩
  · unfold lindos_error_message rust_string_to_c
    split
    · exact absurd rfl h1
    · exact absurd rfl h2
    · exact absurd rfl h3
    · exact absurd rfl h4
    · rfl
  · rfl

/-- C6 witness: code 0 is not in the catalog and maps to `"Unknown error"`. -/
theorem c6_error_message_catalog_witness :
    lindos_error_message 1 = some "No message provided" ∧
    lindos_error_message 2 = some "Message contains invalid characters" ∧
    lindos_error_message 3 = some "Message cannot be empty" ∧
    lindos_error_message 4 = some "Failed to process message" ∧
    lindos_error_message 0 = some "Unknown error" ∧
    (lindos_error_message 0).isSome = true :=
  c6_error_message_catalog 0 (by decide)

/-- C7: the `EmptyInput` failure (code 3) is unreachable: no input handle
makes `process_message_checked` or `validate_message` return code 3, and
`generate_reply` never returns the `EmptyMessage` error. -/
theorem c7_code3_unreachable (input : CInput) (s : String) :
    (lindos_process_message_safe input).error_code ≠ 3 ∧
    lindos_validate_message input ≠ 3 ∧
    generate_reply s ≠ Except.error ProcessingError.EmptyMessage := by
  refine ⟨?_, ?_, ?_⟩
  · cases hd : safe_str_from_ptr input with
    | error e =>
      have henv : lindos_process_message_safe input = RustResult.mkError e := by
        simp only [lindos_process_message_safe, hd]
      rw [henv]
      rcases safe_str_from_ptr_error_cases input e hd with rfl | rfl <;> simp [RustResult.mkError]
    | ok t =>
      cases hg : generate_reply t with
      | ok reply =>
        have henv : lindos_process_message_safe input = RustResult.mkSuccess reply := by
          simp only [lindos_process_message_safe, hd, hg]
        rw [henv]
        simp [RustResult.mkSuccess]
      | error e =>
        have henv : lindos_process_message_safe input = RustResult.mkError e := by
          simp only [lindos_process_message_safe, hd, hg]
        rw [henv, generate_reply_error_cases t e hg]
        simp [RustResult.mkError]
  · unfold lindos_validate_message
    cases hd : safe_str_from_ptr input with
    | error e =>
      rcases safe_str_from_ptr_error_cases input e hd with rfl | rfl <;> simp
    | ok t =>
      by_cases hl : t.utf8ByteSize > 1000 <;> simp [hl]
  · intro hg
    have := generate_reply_error_cases s _ hg
    cases this

/-- C8: `process_message` always returns a non-null buffer whose content is
either the transform's output or the failure kind's fixed user-facing
message; no other outcome exists. -/
theorem c8_process_message_total (input : CInput) :
    ∃ m : String, lindos_process_message input = some m ∧
      ((∃ s r, safe_str_from_ptr input = Except.ok s ∧
          generate_reply s = Except.ok r ∧ m = r) ∨
       (∃ e : ProcessingError,
          (safe_str_from_ptr input = Except.error e ∨
           ∃ s, safe_str_from_ptr input = Except.ok s ∧ generate_reply s = Except.error e) ∧
          m = e.to_user_message)) := by
  cases hd : safe_str_from_ptr input with
  | error e =>
    refine ⟨e.to_user_message, ?_, Or.inr ⟨e, Or.inl rfl, rfl⟩⟩
    simp only [lindos_process_message, rust_string_to_c, hd]
  | ok s =>
    cases hg : generate_reply s with
    | ok reply =>
      refine ⟨reply, ?_, Or.inl ⟨s, reply, rfl, hg, rfl⟩⟩
      simp only [lindos_process_message, rust_string_to_c, hd, hg]
    | error e =>
      refine ⟨e.to_user_message, ?_, Or.inr ⟨e, Or.inr ⟨s, rfl, hg⟩, rfl⟩⟩
      simp only [lindos_process_message, rust_string_to_c, hd, hg]

/-- C9: `validate_message` is pure and idempotent: it leaves the process
state (the Diagnostics Flag) unchanged, and a repeated call with the same
input returns the same code. -/
theorem c9_validate_pure_idempotent (input : CInput) (st : LindosState) :
    (lindos_validate_message_st input st).2 = st ∧
    (lindos_validate_message_st input ((lindos_validate_message_st input st).2)).1 =
      (lindos_validate_message_st input st).1 :=
  ⟨rfl, rfl⟩

/-- C10: the results of `process_message`, `process_message_checked` and
`validate_message` do not depend on the Diagnostics Flag: runs after
`set_debug` with different flag values return identical buffers, envelopes
and codes. -/
theorem c10_results_independent_of_debug (input : CInput) (e1 e2 : Bool)
    (st1 st2 : LindosState) :
    (lindos_process_message_st input (lindos_set_debug e1 st1)).1 =
      (lindos_process_message_st input (lindos_set_debug e2 st2)).1 ∧
    (lindos_process_message_safe_st input (lindos_set_debug e1 st1)).1 =
      (lindos_process_message_safe_st input (lindos_set_debug e2 st2)).1 ∧
    (lindos_validate_message_st input (lindos_set_debug e1 st1)).1 =
      (lindos_validate_message_st input (lindos_set_debug e2 st2)).1 :=
  ⟨rfl, rfl, rfl⟩
